import Mathlib

/-!
Verification development for the multi-agent math reasoning pipeline.

The definitions below are a shallow embedding of the orchestration core and
the four agent capabilities: the routing agent (agents/intent_router.py), the
solver (agents/solver.py), the verifier (agents/verifier.py), the explainer
(agents/explainer.py), and the pipeline orchestrator with its HITL ledger
(main.py).  Python dictionaries exchanged with the language-model clients are
embedded as JSON-like values; floats are embedded as rationals; functions that
can raise a Python exception return `Except String`.  The language model
itself is external: each agent function takes the reply of its model call as
an explicit argument of type `LLMResponse`, which is the return contract of
`GeminiClient.generate` and `GroqClient.generate` (llm/gemini_client.py,
llm/groq_client.py).
-/

set_option linter.unusedVariables false

/-- JSON-like values exchanged with the language-model clients. -/
inductive JVal where
  | jnull
  | jbool (b : Bool)
  | jnum (q : ℚ)
  | jstr (s : String)
  | jarr (xs : List JVal)
  | jobj (kvs : List (String × JVal))

/-- First-match association lookup; mirrors Python dict key access for the
parsed JSON objects of this embedding (parsed JSON never holds duplicate keys). -/
def hlookup : List (String × α) → String → Option α
  | [], _ => none
  | (k, v) :: rest, key => if k = key then some v else hlookup rest key

/-- Return contract of `GeminiClient.generate` and `GroqClient.generate`:
a dict with keys success, content, parsed_json and error.  `parsed_json` is
`none` when the model reply was not valid JSON. -/
structure LLMResponse where
  success : Bool
  content : String
  parsed_json : Option JVal
  error : Option String

/-- Problem payload consumed by the pipeline (spec section 3, `problem_data`
in main.py).  Only the fields the embedded code reads are kept. -/
structure ProblemInput where
  problem_text : String
  topic : Option String
  -- the source field name is variables, which is reserved in Lean
  vars : List String
  constraints : List String
  retrieved_context : List String

/-- Result dict of `IntentRouter.route` and of its helpers. -/
structure RouteDecision where
  route : String
  difficulty : String
  tools_allowed : List String
  reason : Option String

/-- Valid route set of IntentRouter (agents/intent_router.py, VALID_ROUTES). -/
def VALID_ROUTES : List String :=
  ["algebra_equation", "probability_basic", "calculus_limit",
   "calculus_derivative", "calculus_optimization", "linear_algebra_basic"]

/-- Valid difficulty set of IntentRouter (agents/intent_router.py). -/
def VALID_DIFFICULTIES : List String := ["easy", "medium", "hard"]

/-- Valid tool set of IntentRouter (agents/intent_router.py). -/
def VALID_TOOLS : List String := ["python"]

/-- Topic-hint table of `IntentRouter.route` (agents/intent_router.py). -/
def TOPIC_TO_ROUTE : List (String × String) :=
  [("algebra", "algebra_equation"), ("probability", "probability_basic"),
   ("calculus", "calculus_derivative"), ("linear_algebra", "linear_algebra_basic")]

/-- Embedding of `IntentRouter._out_of_scope` (agents/intent_router.py). -/
def router_out_of_scope (reason : String) : RouteDecision :=
  { route := "out_of_scope", difficulty := "unknown", tools_allowed := [],
    reason := some reason }

/-- Modelled from the spec: recognizer for a well-formed reply of the routing
model.  The method `IntentRouter._llm_route` is invoked by `IntentRouter.route`
but its definition is missing from the provided sources; per the spec
(section 4.1, Route) a reply is honored only when it is a JSON object whose
route is one of the allowed routes and whose difficulty and tools are from the
declared enumerations; anything else counts as malformed or unrecognized. -/
def llm_route_wellformed (resp : LLMResponse) : Option RouteDecision :=
  if resp.success then
    match resp.parsed_json with
    | some (.jobj kvs) =>
      match hlookup kvs "route", hlookup kvs "difficulty", hlookup kvs "tools_allowed" with
      | some (.jstr r), some (.jstr d), some (.jarr ts) =>
        if VALID_ROUTES.contains r
            && (VALID_DIFFICULTIES.contains d || d == "unknown")
            && ts.all (fun t => match t with
                | .jstr s => VALID_TOOLS.contains s
                | _ => false) then
          some { route := r, difficulty := d,
                 tools_allowed := ts.filterMap (fun t => match t with
                   | .jstr s => some s
                   | _ => none),
                 reason := none }
        else none
      | _, _, _ => none
    | _ => none
  else none

/-- Modelled from the spec: `IntentRouter._llm_route`, the model-backed routing
fallback, is referenced by `IntentRouter.route` but missing from the provided
sources.  Per the spec (section 4.1, Route) it fails closed: any malformed or
unrecognized output from the underlying model is normalized to
route=out_of_scope, difficulty=unknown; a well-formed output is honored. -/
def llm_route (resp : LLMResponse) : RouteDecision :=
  match llm_route_wellformed resp with
  | some rd => rd
  | none => router_out_of_scope "Routing model output malformed or unrecognized"

/-- Embedding of `IntentRouter.route` (agents/intent_router.py lines 101-125):
a recognized topic hint is honored deterministically without a model call;
otherwise the model-backed fallback decides. -/
def route (problem_data : ProblemInput) (resp : LLMResponse) : RouteDecision :=
  match problem_data.topic with
  | some topic =>
    match hlookup TOPIC_TO_ROUTE topic with
    | some r => { route := r, difficulty := "medium", tools_allowed := ["python"],
                  reason := none }
    | none => llm_route resp
  | none => llm_route resp

/-- Result dict of `SolverAgent.solve` (agents/solver.py).  The FAILED shape
of the source carries final_answer None and steps []; the SOLVED shape carries
no reason key, embedded here as `none`, and the FAILED shape carries no
used_tools key, embedded here as `[]`. -/
structure SolverResult where
  status : String
  final_answer : JVal
  steps : List JVal
  used_tools : List JVal
  reason : Option String

/-- Shape of the FAILED dicts returned by `SolverAgent.solve`. -/
def solver_failed (reason : Option String) : SolverResult :=
  { status := "FAILED", final_answer := .jnull, steps := [], used_tools := [],
    reason := reason }

/-- Character set of the Python strip call in the steps normalization of
`SolverAgent.solve`: `s.strip("-• \n\t")`. -/
def solver_strip_chars : List Char := ['-', '•', ' ', '\n', '\t']

/-- Strip the given characters from both ends of a string, as Python
`str.strip(chars)` does. -/
def py_strip (cs : List Char) (s : String) : String :=
  String.mk (((s.toList.dropWhile (cs.contains ·)).reverse.dropWhile
    (cs.contains ·)).reverse)

/-- Python str.strip() with no argument: remove leading and trailing
whitespace (Python also strips some unicode whitespace; no claim depends on
those characters). -/
def py_trim (s : String) : String :=
  String.mk (((s.toList.dropWhile Char.isWhitespace).reverse.dropWhile
    Char.isWhitespace).reverse)

/-- Steps normalization of `SolverAgent.solve` when the model returned the
steps as one string: split on newlines, keep lines that are nonempty after a
whitespace strip, and strip list-marker characters from each kept line. -/
def split_steps (s : String) : List JVal :=
  ((s.splitOn "\n").filter (fun line => py_trim line ≠ "")).map
    (fun line => .jstr (py_strip solver_strip_chars line))

/-- Python iteration over a JSON value, as used by the tool-enforcement loop
of `SolverAgent.solve`: arrays yield their elements, strings their characters,
objects their keys; other values are not iterable (Python raises TypeError). -/
def py_iter : JVal → Option (List JVal)
  | .jarr xs => some xs
  | .jstr s => some (s.toList.map (fun c => .jstr (String.mk [c])))
  | .jobj kvs => some (kvs.map (fun kv => .jstr kv.1))
  | _ => none

/-- Approximation of Python str() on a JSON value, used only to build failure
reason strings; no claim depends on the exact text. -/
def jdisplay : JVal → String
  | .jstr s => s
  | .jnum q => toString q
  | .jbool b => if b then "True" else "False"
  | .jnull => "None"
  | .jarr _ => "[...]"
  | .jobj _ => "\x7b...\x7d"

/-- Membership test of the tool-enforcement loop of `SolverAgent.solve`:
Python `tool not in tools_allowed` compares the requested JSON value against
the allowed names, which are strings, so only a string can match. -/
def tool_allowed (t : JVal) (tools_allowed : List String) : Bool :=
  match t with
  | .jstr s => tools_allowed.contains s
  | _ => false

/-- Tool-enforcement loop of `SolverAgent.solve` (agents/solver.py lines
186-196): the first unauthorized request aborts with the failure reason,
otherwise the requests are collected in order as used_tools. -/
def enforce_tools (tools : List JVal) (tools_allowed : List String) :
    Except String (List JVal) :=
  match tools with
  | [] => .ok []
  | t :: rest =>
    if tool_allowed t tools_allowed then
      match enforce_tools rest tools_allowed with
      | .ok used => .ok (t :: used)
      | .error e => .error e
    else .error ("Unauthorized tool request: " ++ jdisplay t)

/-- Embedding of `SolverAgent.solve` (agents/solver.py lines 101-203).  The
reply of the model call is passed in as `llm_response`.  A Python TypeError
(iteration over a non-iterable tool_requests value) is an `Except.error`. -/
def SolverAgent.solve (problem_text rt difficulty : String)
    (tools_allowed : List String) (rag_context : List String)
    (llm_response : LLMResponse) : Except String SolverResult :=
  if rt = "out_of_scope" then
    .ok (solver_failed (some "Problem out of supported scope"))
  else if !llm_response.success then
    -- llm_response.get("error", "LLM call failed"): the error key is always
    -- present in the client contract, so the stored error value is used.
    .ok (solver_failed llm_response.error)
  else
    match llm_response.parsed_json with
    | some (.jobj solution) =>
      if (hlookup solution "final_answer").isNone then
        .ok (solver_failed (some "Missing required key: final_answer"))
      else if (hlookup solution "steps").isNone then
        .ok (solver_failed (some "Missing required key: steps"))
      else if (hlookup solution "tool_requests").isNone then
        .ok (solver_failed (some "Missing required key: tool_requests"))
      else
        let steps0 := (hlookup solution "steps").getD .jnull
        let steps1 : JVal := match steps0 with
          | .jstr s => .jarr (split_steps s)
          | other => other
        match steps1 with
        | .jarr steps_list =>
          match (hlookup solution "final_answer").getD .jnull with
          | .jstr fa =>
            if py_trim fa = "" then
              .ok (solver_failed (some "Final answer is empty or invalid"))
            else
              match py_iter ((hlookup solution "tool_requests").getD (.jarr [])) with
              | none => .error "TypeError: tool_requests is not iterable"
              | some tools =>
                match enforce_tools tools tools_allowed with
                | .error reason => .ok (solver_failed (some reason))
                | .ok used_tools =>
                  .ok { status := "SOLVED", final_answer := .jstr fa,
                        steps := steps_list, used_tools := used_tools,
                        reason := none }
          | _ => .ok (solver_failed (some "Final answer is empty or invalid"))
        | _ => .ok (solver_failed (some "Steps must be a list"))
    | _ => .ok (solver_failed (some "LLM did not return valid JSON"))

/-- Result dict of `VerifierAgent.verify` (agents/verifier.py). -/
structure Verification where
  verdict : String
  confidence : ℚ
  issues : List JVal
  requires_hitl : Bool

/-- Confidence threshold of VerifierAgent (agents/verifier.py line 19,
default 0.85). -/
def VerifierAgent.confidence_threshold : ℚ := mkRat 85 100

/-- Embedding of `VerifierAgent._fail_closed` (agents/verifier.py lines
153-162): any verifier failure requires HITL. -/
def VerifierAgent.fail_closed (reason : String) : Verification :=
  { verdict := "uncertain", confidence := 0, issues := [.jstr reason],
    requires_hitl := true }

/-- Conversion applied by `float(confidence)` in `VerifierAgent.verify`:
numbers pass through, booleans coerce to 0 or 1, everything else raises and
falls back to 0.0 through the except branch.  Numeric-string coercion, which
Python float would accept, is modelled as a failure; this only changes which
rational a malformed reply maps to and no claim depends on that case. -/
def py_float : JVal → Option ℚ
  | .jnum q => some q
  | .jbool b => some (if b then 1 else 0)
  | _ => none

/-- Embedding of `VerifierAgent.verify` (agents/verifier.py lines 90-147).
The structural checks on the solution argument are evaluated on the embedded
`SolverResult` record: the solution is always a dict and its steps are always
a list there, so only the final_answer string check can fail. -/
def VerifierAgent.verify (problem_text : String) (solution : SolverResult)
    (rt : String) (llm_response : LLMResponse) : Verification :=
  if !(match solution.final_answer with | .jstr _ => true | _ => false) then
    VerifierAgent.fail_closed "Missing or invalid final_answer"
  else if !llm_response.success then
    VerifierAgent.fail_closed "Verifier LLM call failed"
  else
    match llm_response.parsed_json with
    | some (.jobj data) =>
      let verdict0 := (hlookup data "verdict").getD (.jstr "uncertain")
      let confidence := (py_float ((hlookup data "confidence").getD (.jnum 0))).getD 0
      let issues0 := (hlookup data "issues").getD (.jarr [])
      let verdict : String := match verdict0 with
        | .jstr v => if v = "correct" || v = "incorrect" || v = "uncertain" then v
                     else "uncertain"
        | _ => "uncertain"
      let issues : List JVal := match issues0 with
        | .jarr xs => xs
        | _ => [.jstr "Invalid issues format returned by verifier"]
      { verdict := verdict, confidence := confidence, issues := issues,
        requires_hitl := verdict != "correct"
          || decide (confidence < VerifierAgent.confidence_threshold) }
    | _ => VerifierAgent.fail_closed "Verifier returned invalid JSON"

/-- Result dict of `ExplainerAgent.explain` (agents/explainer.py). -/
structure ExplanationResult where
  explanation : JVal
  key_concepts : JVal
  common_mistakes : JVal

/-- View of an `LLMResponse` as the Python dict the clients return; used by
the embedding of `ExplainerAgent.explain`, which reads keys directly off this
wrapper dict. -/
def LLMResponse.as_dict (r : LLMResponse) : List (String × JVal) :=
  [("success", .jbool r.success),
   ("content", .jstr r.content),
   ("parsed_json", r.parsed_json.getD .jnull),
   ("error", match r.error with | some e => .jstr e | none => .jnull)]

/-- Embedding of `ExplainerAgent.explain` (agents/explainer.py lines 102-155).
The guard raises ValueError below confidence 0.85, embedded as `Except.error`.
After the guard, the source binds `parsed` to the return value of
`self.llm.generate`, which under the client contract is the wrapper dict (and
not a str), and reads the keys explanation, key_concepts and common_mistakes
off that wrapper; the try block performs only dict lookups, which cannot
raise, so the except fallback of the source is unreachable. -/
def ExplainerAgent.explain (problem_text : String)
    (verified_solution : List (String × JVal)) (verification_confidence : ℚ)
    (llm_response : LLMResponse) : Except String ExplanationResult :=
  if verification_confidence < mkRat 85 100 then
    .error "ExplainerAgent should not run on low-confidence solutions"
  else
    let parsed := llm_response.as_dict
    let explanation0 := (hlookup parsed "explanation").getD (.jarr [])
    let key_concepts := (hlookup parsed "key_concepts").getD (.jarr [])
    let common_mistakes := (hlookup parsed "common_mistakes").getD (.jarr [])
    let explanation : JVal := match explanation0 with
      | .jstr s => .jarr [.jstr s]
      | other => other
    .ok { explanation := explanation, key_concepts := key_concepts,
          common_mistakes := common_mistakes }

/-- Dict view of a solver result, as passed to `ExplainerAgent.explain`. -/
def SolverResult.as_dict (s : SolverResult) : List (String × JVal) :=
  [("status", .jstr s.status), ("final_answer", s.final_answer),
   ("steps", .jarr s.steps), ("used_tools", .jarr s.used_tools)]
  ++ (match s.reason with | some r => [("reason", .jstr r)] | none => [])

/-- Confidence threshold of the orchestrator (main.py line 22). -/
def CONFIDENCE_THRESHOLD : ℚ := mkRat 85 100

/-- Allowed HITL resume actions (main.py line 23). -/
def ALLOWED_HITL_ACTIONS : List String :=
  ["approve", "reject", "edit_problem", "correct_solution"]

/-- Terminal states of a HITL record (main.py line 24). -/
def TERMINAL_STATES : List String := ["RESOLVED"]

/-- Output stored in one trace entry, per stage. -/
inductive AgentOutput where
  | router (output : RouteDecision)
  | solver (output : SolverResult)
  | verifier (output : Verification)

/-- One entry of the agent_trace list built by
`MultiAgentSystem.process_problem`. -/
structure StageEvent where
  agent : String
  output : AgentOutput

/-- The hitl_reason dict stored in a HITL record and returned with a
HITL_REQUIRED outcome (main.py lines 100-104). -/
structure HitlReason where
  verdict : String
  confidence : ℚ
  requires_hitl : Bool

/-- One record of the HITL_STORE ledger (main.py lines 94-105); the
resolution_type key is absent at creation and set by some resume actions. -/
structure HITLRecord where
  state : String
  problem_data : ProblemInput
  solution : SolverResult
  verification : Verification
  agent_trace : List StageEvent
  hitl_reason : HitlReason
  resolution_type : Option String

/-- The HITL_STORE ledger: an id-keyed store of suspended runs. -/
abbrev HitlStore := List (String × HITLRecord)

/-- Confidence gate of `MultiAgentSystem.process_problem` (main.py lines
87-91): the run is suspended to HITL exactly when this condition holds. -/
def gate_suspends (verification : Verification) : Bool :=
  verification.verdict != "correct"
    || decide (verification.confidence < CONFIDENCE_THRESHOLD)
    || verification.requires_hitl

/-- Outcome union of `MultiAgentSystem.process_problem` (main.py): the
returned dict per terminal status. -/
inductive RunResult where
  | out_of_scope (agent_trace : List StageEvent)
  | failed (agent_trace : List StageEvent)
  | hitl_required (hitl_request_id : String) (hitl_reason : HitlReason)
  | success (final_answer : JVal) (steps : List JVal)
      (explanation : ExplanationResult) (confidence : ℚ)
      (agent_trace : List StageEvent)

/-- Model replies consumed by one pipeline run, one per possible stage call. -/
structure StageResponses where
  router : LLMResponse
  solver : LLMResponse
  verifier : LLMResponse
  explainer : LLMResponse

/-- Embedding of `MultiAgentSystem.process_problem` (main.py lines 59-126).
The fresh uuid for a suspension is passed in as `fresh_id`, and the global
HITL_STORE is passed and returned explicitly.  A Python exception escaping
the pipeline is an `Except.error`. -/
def MultiAgentSystem.process_problem (problem_data : ProblemInput)
    (resps : StageResponses) (fresh_id : String) (store : HitlStore) :
    Except String (RunResult × HitlStore) :=
  let route_info := route problem_data resps.router
  let trace1 : List StageEvent :=
    [{ agent := "IntentRouter", output := .router route_info }]
  if route_info.route = "out_of_scope" then
    .ok (.out_of_scope trace1, store)
  else
    match SolverAgent.solve problem_data.problem_text route_info.route
        route_info.difficulty route_info.tools_allowed
        problem_data.retrieved_context resps.solver with
    | .error e => .error e
    | .ok solver_result =>
      let trace2 := trace1 ++ [{ agent := "Solver", output := .solver solver_result }]
      if solver_result.status ≠ "SOLVED" then
        .ok (.failed trace2, store)
      else
        let verification := VerifierAgent.verify problem_data.problem_text
          solver_result route_info.route resps.verifier
        let trace3 := trace2 ++ [{ agent := "Verifier", output := .verifier verification }]
        if gate_suspends verification then
          let reason : HitlReason :=
            { verdict := verification.verdict,
              confidence := verification.confidence,
              requires_hitl := verification.requires_hitl }
          let record : HITLRecord :=
            { state := "PENDING_REVIEW", problem_data := problem_data,
              solution := solver_result, verification := verification,
              agent_trace := trace3, hitl_reason := reason,
              resolution_type := none }
          .ok (.hitl_required fresh_id reason, (fresh_id, record) :: store)
        else
          match ExplainerAgent.explain problem_data.problem_text
              solver_result.as_dict verification.confidence resps.explainer with
          | .error e => .error e
          | .ok explanation =>
            .ok (.success solver_result.final_answer solver_result.steps
                  explanation verification.confidence trace3, store)

/-- Outcome union of `MultiAgentSystem.resume_from_hitl` (main.py): the
returned dict per status. -/
inductive ResumeOutcome where
  | error (message : String)
  | rejected
  | needs_rerun (updated_problem_data : ProblemInput) (instruction : String)
  | success (final_answer : JVal) (steps : JVal)
      (explanation : ExplanationResult) (confidence : ℚ)

/-- Resume request payload (main.py lines 132-134 and the per-action reads):
the required ids plus the optional per-action fields. -/
structure ResumePayload where
  hitl_request_id : String
  action : String
  edited_problem_text : Option String
  corrected_solution : Option (List (String × JVal))

/-- In-place mutation of one ledger record, as the source performs on the
shared HITL_STORE dict. -/
def store_update (store : HitlStore) (id : String) (record : HITLRecord) :
    HitlStore :=
  store.map (fun kv => if kv.1 = id then (id, record) else kv)

/-- Embedding of `MultiAgentSystem.resume_from_hitl` (main.py lines 132-211).
The reply for the explainer call is passed in as `expl_response`.  A Python
exception escaping the handler is an `Except.error`.  The final branch is
unreachable: an action that passed the ALLOWED_HITL_ACTIONS check is one of
the four handled actions. -/
def MultiAgentSystem.resume_from_hitl (payload : ResumePayload)
    (expl_response : LLMResponse) (store : HitlStore) :
    Except String (ResumeOutcome × HitlStore) :=
  let hitl_id := payload.hitl_request_id
  let action := payload.action
  if !ALLOWED_HITL_ACTIONS.contains action then
    .ok (.error "Invalid HITL action", store)
  else
    match hlookup store hitl_id with
    | none => .ok (.error "Invalid HITL request ID", store)
    | some record =>
      if TERMINAL_STATES.contains record.state then
        .ok (.error ("HITL request already resolved (state=" ++ record.state ++ ")"),
             store)
      else if action = "approve" then
        match ExplainerAgent.explain record.problem_data.problem_text
            record.solution.as_dict record.verification.confidence expl_response with
        | .error e => .error e
        | .ok explanation =>
          .ok (.success record.solution.final_answer (.jarr record.solution.steps)
                explanation record.verification.confidence,
               store_update store hitl_id { record with state := "RESOLVED" })
      else if action = "reject" then
        .ok (.rejected, store_update store hitl_id { record with state := "RESOLVED" })
      else if action = "edit_problem" then
        match payload.edited_problem_text with
        | none => .ok (.error "edited_problem_text required", store)
        | some edited_text =>
          if edited_text = "" then
            .ok (.error "edited_problem_text required", store)
          else
            let record1 :=
              { record with
                problem_data := { record.problem_data with problem_text := edited_text },
                state := "RESOLVED",
                resolution_type := some "EDITED_PROBLEM" }
            .ok (.needs_rerun record1.problem_data "Re-run pipeline from IntentRouter",
                 store_update store hitl_id record1)
      else if action = "correct_solution" then
        match payload.corrected_solution with
        | none => .ok (.error "corrected_solution required", store)
        | some corrected =>
          -- Python: `if not corrected` also rejects an empty dict
          if corrected.isEmpty then
            .ok (.error "corrected_solution required", store)
          else if !((hlookup corrected "final_answer").isSome
              && (hlookup corrected "steps").isSome) then
            .ok (.error "corrected_solution must include final_answer and steps", store)
          else
            match ExplainerAgent.explain record.problem_data.problem_text
                corrected 1 expl_response with
            | .error e => .error e
            | .ok explanation =>
              .ok (.success ((hlookup corrected "final_answer").getD .jnull)
                    ((hlookup corrected "steps").getD .jnull) explanation 1,
                   store_update store hitl_id
                     { record with
                       state := "RESOLVED",
                       resolution_type := some "EDITED_PROBLEM" })
      else
        .ok (.error "Invalid HITL action", store)

/-! Concrete fixtures used by the theorems below. -/

/-- Generic model reply used where the content of a call is irrelevant. -/
def stub_response : LLMResponse :=
  { success := true, content := "", parsed_json := none, error := none }

/-- Stage replies that are all stubs. -/
def stub_responses : StageResponses :=
  { router := stub_response, solver := stub_response, verifier := stub_response,
    explainer := stub_response }

/-- Concrete SOLVED solver result used by the ledger fixtures. -/
def fixture_solution : SolverResult :=
  { status := "SOLVED", final_answer := .jstr "x = 5",
    steps := [.jstr "Subtract 5 from both sides", .jstr "Divide both sides by 2"],
    used_tools := [], reason := none }

/-- Concrete low-confidence verification, as the verifier produces in the
suspension scenario of spec section 8 (verdict uncertain, confidence 0.4). -/
def fixture_low_verification : Verification :=
  { verdict := "uncertain", confidence := mkRat 2 5, issues := [],
    requires_hitl := true }

/-- Concrete pending ledger record holding a low stored confidence. -/
def fixture_low_record : HITLRecord :=
  { state := "PENDING_REVIEW",
    problem_data := { problem_text := "Solve 2x+5=15", topic := some "algebra",
                      vars := ["x"], constraints := [], retrieved_context := [] },
    solution := fixture_solution,
    verification := fixture_low_verification,
    agent_trace := [],
    hitl_reason := { verdict := "uncertain", confidence := mkRat 2 5,
                     requires_hitl := true },
    resolution_type := none }

/-- C1: the claim asserts that Resume with action approve on a PENDING_REVIEW
record returns a DONE outcome, never raising, for any stored confidence.  The
code contradicts it: `ExplainerAgent.explain` raises ValueError whenever the
passed confidence is below 0.85, and `resume_from_hitl` passes the stored
verification confidence straight through, so approving a record stored with
confidence 0.4 (the normal way records get created, since the gate trips
exactly on low confidence) raises through the orchestrator.  This theorem
evaluates the embedded code at that failing input. -/
theorem c1_approve_low_confidence_raises :
    MultiAgentSystem.resume_from_hitl
      { hitl_request_id := "hitl-1", action := "approve",
        edited_problem_text := none, corrected_solution := none }
      stub_response [("hitl-1", fixture_low_record)]
    = .error "ExplainerAgent should not run on low-confidence solutions" := by
  rfl

/-- C7 counterexample: the claim requires corrected_solution to supply
non-empty final_answer and steps, with an error outcome otherwise.  The code
only checks key presence: a corrected_solution with an empty final_answer
string and an empty steps list is accepted and produces a DONE (SUCCESS)
outcome at confidence 1.0, not an error. -/
theorem c7_counterexample_empty_fields_accepted :
    MultiAgentSystem.resume_from_hitl
      { hitl_request_id := "hitl-7", action := "correct_solution",
        edited_problem_text := none,
        corrected_solution := some [("final_answer", .jstr ""), ("steps", .jarr [])] }
      stub_response [("hitl-7", fixture_low_record)]
    = .ok (.success (.jstr "") (.jarr [])
            { explanation := .jarr [], key_concepts := .jarr [],
              common_mistakes := .jarr [] } 1,
           [("hitl-7", { fixture_low_record with
                         state := "RESOLVED",
                         resolution_type := some "EDITED_PROBLEM" })]) := by
  rfl

/-- C5: whenever routing yields route=out_of_scope, the run terminates at once
with an OUT_OF_SCOPE outcome whose trace holds only the router event, the
ledger is unchanged (no HITLRecord is created), and no later stage result
enters the run. -/
theorem c5_out_of_scope_short_circuits (pd : ProblemInput)
    (resps : StageResponses) (fresh_id : String) (store : HitlStore)
    (h : (route pd resps.router).route = "out_of_scope") :
    MultiAgentSystem.process_problem pd resps fresh_id store
      = .ok (.out_of_scope
          [{ agent := "IntentRouter", output := .router (route pd resps.router) }],
          store) := by
  unfold MultiAgentSystem.process_problem
  simp [h]

/-- Concrete problem with no usable topic hint. -/
def c5_problem : ProblemInput :=
  { problem_text := "What is the capital of France?", topic := none,
    vars := [], constraints := [], retrieved_context := [] }

/-- Witness for C5 at a concrete out-of-scope input. -/
theorem c5_out_of_scope_short_circuits_witness :
    MultiAgentSystem.process_problem c5_problem stub_responses "fresh-5" []
      = .ok (.out_of_scope
          [{ agent := "IntentRouter",
             output := .router (route c5_problem stub_responses.router) }], []) :=
  c5_out_of_scope_short_circuits c5_problem stub_responses "fresh-5" [] rfl

/-- The requires_hitl flag of every verifier result is derived from its own
verdict and confidence at the verifier threshold (agents/verifier.py lines
137-140); the fail-closed results satisfy the same equation. -/
theorem verify_requires_hitl_derived (pt : String) (sol : SolverResult)
    (rt : String) (resp : LLMResponse) :
    (VerifierAgent.verify pt sol rt resp).requires_hitl
      = ((VerifierAgent.verify pt sol rt resp).verdict != "correct"
         || decide ((VerifierAgent.verify pt sol rt resp).confidence
              < VerifierAgent.confidence_threshold)) := by
  unfold VerifierAgent.verify
  split
  · rfl
  · split
    · rfl
    · split
      · rfl
      · rfl

/-- The two copies of the 0.85 threshold, in the orchestrator and in the
verifier, agree. -/
theorem thresholds_agree :
    VerifierAgent.confidence_threshold = CONFIDENCE_THRESHOLD := rfl

/-- C2: the confidence gate admits the run iff the verification has verdict
correct, confidence at least the threshold and a false derived needs_review
(requires_hitl) flag; since the flag is derived at the same threshold, the
gate passes iff verdict=correct and confidence>=threshold, confidence exactly
at the threshold with verdict correct passes, and any confidence strictly
below the threshold suspends. -/
theorem c2_confidence_gate (pt : String) (sol : SolverResult) (rt : String)
    (resp : LLMResponse) :
    (gate_suspends (VerifierAgent.verify pt sol rt resp) = false
      ↔ ((VerifierAgent.verify pt sol rt resp).verdict = "correct"
         ∧ CONFIDENCE_THRESHOLD ≤ (VerifierAgent.verify pt sol rt resp).confidence
         ∧ (VerifierAgent.verify pt sol rt resp).requires_hitl = false))
    ∧ (gate_suspends (VerifierAgent.verify pt sol rt resp) = false
      ↔ ((VerifierAgent.verify pt sol rt resp).verdict = "correct"
         ∧ CONFIDENCE_THRESHOLD ≤ (VerifierAgent.verify pt sol rt resp).confidence))
    ∧ ((VerifierAgent.verify pt sol rt resp).confidence < CONFIDENCE_THRESHOLD
       → gate_suspends (VerifierAgent.verify pt sol rt resp) = true) := by
  have hd := verify_requires_hitl_derived pt sol rt resp
  rw [thresholds_agree] at hd
  refine ⟨?_, ?_, ?_⟩
  · simp only [gate_suspends, hd, Bool.or_eq_false_iff, bne_eq_false_iff_eq,
      decide_eq_false_iff_not, not_lt]
    tauto
  · simp only [gate_suspends, hd, Bool.or_eq_false_iff, bne_eq_false_iff_eq,
      decide_eq_false_iff_not, not_lt]
    tauto
  · intro hlt
    simp [gate_suspends, hd, hlt]

/-- Verifier reply sitting exactly at the threshold boundary. -/
def boundary_verifier_response : LLMResponse :=
  { success := true, content := "",
    parsed_json := some (.jobj
      [("verdict", .jstr "correct"), ("confidence", .jnum (mkRat 85 100)),
       ("issues", .jarr [])]),
    error := none }

/-- Witness for C2: at verdict correct and confidence exactly equal to the
threshold, the gate passes. -/
theorem c2_confidence_gate_witness :
    gate_suspends (VerifierAgent.verify "Solve 2x+5=15" fixture_solution
      "algebra_equation" boundary_verifier_response) = false :=
  (c2_confidence_gate "Solve 2x+5=15" fixture_solution "algebra_equation"
    boundary_verifier_response).2.1.mpr ⟨rfl, by decide⟩

/-- C3: when the topic of the problem is not a recognized hint, routing falls
through to the model-backed fallback, and any malformed or unrecognized model
output is normalized to route=out_of_scope, difficulty=unknown (the fallback
method is modelled from the spec; see `llm_route`). -/
theorem c3_routing_fails_closed (pd : ProblemInput) (resp : LLMResponse)
    (htopic : ∀ t, pd.topic = some t → hlookup TOPIC_TO_ROUTE t = none)
    (hmalformed : llm_route_wellformed resp = none) :
    (route pd resp).route = "out_of_scope"
    ∧ (route pd resp).difficulty = "unknown" := by
  unfold route
  cases hpd : pd.topic with
  | none => simp [llm_route, hmalformed, router_out_of_scope]
  | some t =>
    have h := htopic t hpd
    simp [h, llm_route, hmalformed, router_out_of_scope]

/-- Concrete problem whose topic hint is not in the recognized table. -/
def c3_problem : ProblemInput :=
  { problem_text := "Find the area of a regular hexagon", topic := some "geometry",
    vars := [], constraints := [], retrieved_context := [] }

/-- Witness for C3 at a concrete unrecognized topic and an unparseable model
reply. -/
theorem c3_routing_fails_closed_witness :
    (route c3_problem stub_response).route = "out_of_scope"
    ∧ (route c3_problem stub_response).difficulty = "unknown" :=
  c3_routing_fails_closed c3_problem stub_response
    (by intro t ht; injection ht with h; rw [← h]; rfl) rfl

/-- C4: resuming a RESOLVED record always yields an error outcome with the
ledger unchanged, and every resume call that returns an error outcome
(invalid action, unknown id, already resolved, missing payload field) leaves
the ledger — and hence the looked-up record and its PENDING_REVIEW state —
exactly as it was, so the record can be resumed again. -/
theorem c4_resume_errors_do_not_mutate (payload : ResumePayload)
    (resp : LLMResponse) (store : HitlStore) :
    (∀ record, hlookup store payload.hitl_request_id = some record →
       record.state = "RESOLVED" →
       ∃ msg, MultiAgentSystem.resume_from_hitl payload resp store
         = .ok (.error msg, store))
    ∧ (∀ msg store2, MultiAgentSystem.resume_from_hitl payload resp store
         = .ok (.error msg, store2) → store2 = store) := by
  constructor
  · intro record hrec hres
    by_cases hact : payload.action ∈ ALLOWED_HITL_ACTIONS
    · refine ⟨"HITL request already resolved (state=" ++ record.state ++ ")", ?_⟩
      simp [MultiAgentSystem.resume_from_hitl, hact, hrec, hres, TERMINAL_STATES]
    · exact ⟨"Invalid HITL action",
        by simp [MultiAgentSystem.resume_from_hitl, hact]⟩
  · intro msg store2 h
    simp only [MultiAgentSystem.resume_from_hitl] at h
    repeat' split at h
    all_goals simp_all

/-- Concrete resolved ledger record. -/
def resolved_record : HITLRecord := { fixture_low_record with state := "RESOLVED" }

/-- Witness for C4: resuming a concrete resolved record yields an error and
leaves the ledger unchanged. -/
theorem c4_resume_errors_do_not_mutate_witness :
    ∃ msg, MultiAgentSystem.resume_from_hitl
      { hitl_request_id := "hitl-4", action := "approve",
        edited_problem_text := none, corrected_solution := none }
      stub_response [("hitl-4", resolved_record)]
      = .ok (.error msg, [("hitl-4", resolved_record)]) :=
  (c4_resume_errors_do_not_mutate _ _ _).1 resolved_record rfl rfl

/-- Every result dict of `SolverAgent.solve` has status SOLVED or FAILED. -/
theorem solve_status (pt rt d : String) (ta rc : List String)
    (resp : LLMResponse) (sr : SolverResult)
    (h : SolverAgent.solve pt rt d ta rc resp = .ok sr) :
    sr.status = "SOLVED" ∨ sr.status = "FAILED" := by
  simp only [SolverAgent.solve] at h
  repeat' split at h
  all_goals try exact (Except.noConfusion h)
  all_goals injection h with h2
  all_goals rw [← h2]
  all_goals simp [solver_failed]

/-- C6: when the solver returns a candidate whose status is not SOLVED, the
run terminates with a FAILED outcome whose trace consists of the router event
and the solver event (which carries the whole solver result, including its
failure reason), the ledger is unchanged (no record created), and the trace
holds no Verifier event, so Verify was never entered. -/
theorem c6_solver_failure_short_circuits (pd : ProblemInput)
    (resps : StageResponses) (fresh_id : String) (store : HitlStore)
    (sr : SolverResult)
    (hroute : (route pd resps.router).route ≠ "out_of_scope")
    (hsolve : SolverAgent.solve pd.problem_text (route pd resps.router).route
        (route pd resps.router).difficulty (route pd resps.router).tools_allowed
        pd.retrieved_context resps.solver = .ok sr)
    (hfail : sr.status ≠ "SOLVED") :
    MultiAgentSystem.process_problem pd resps fresh_id store
      = .ok (.failed
          [{ agent := "IntentRouter", output := .router (route pd resps.router) },
           { agent := "Solver", output := .solver sr }], store)
    ∧ sr.status = "FAILED"
    ∧ ([{ agent := "IntentRouter", output := .router (route pd resps.router) },
        { agent := "Solver", output := .solver sr }].map StageEvent.agent
       = ["IntentRouter", "Solver"]) := by
  refine ⟨?_, ?_, rfl⟩
  · unfold MultiAgentSystem.process_problem
    simp [hroute, hsolve, hfail]
  · rcases solve_status _ _ _ _ _ _ _ hsolve with h | h
    · exact absurd h hfail
    · exact h

/-- Concrete problem with a recognized algebra topic hint. -/
def c6_problem : ProblemInput :=
  { problem_text := "Solve 2x+5=15", topic := some "algebra", vars := ["x"],
    constraints := [], retrieved_context := [] }

/-- Solver reply that is not a JSON object, producing a FAILED candidate. -/
def c6_responses : StageResponses :=
  { router := stub_response,
    solver := { success := true, content := "oops",
                parsed_json := some (.jstr "oops"), error := none },
    verifier := stub_response, explainer := stub_response }

/-- Witness for C6 at a concrete failing solver reply. -/
theorem c6_solver_failure_short_circuits_witness :
    MultiAgentSystem.process_problem c6_problem c6_responses "fresh-6" []
      = .ok (.failed
          [{ agent := "IntentRouter", output := .router (route c6_problem c6_responses.router) },
           { agent := "Solver",
             output := .solver (solver_failed (some "LLM did not return valid JSON")) }], [])
    ∧ (solver_failed (some "LLM did not return valid JSON")).status = "FAILED"
    ∧ ([{ agent := "IntentRouter", output := .router (route c6_problem c6_responses.router) },
        { agent := "Solver",
          output := .solver (solver_failed (some "LLM did not return valid JSON")) }].map StageEvent.agent
       = ["IntentRouter", "Solver"]) :=
  c6_solver_failure_short_circuits c6_problem c6_responses "fresh-6" []
    (solver_failed (some "LLM did not return valid JSON"))
    (by decide) rfl (by decide)

/-- Concrete problem reaching DONE (scenario of spec section 8). -/
def c8_problem : ProblemInput :=
  { problem_text := "Solve 2x+5=15", topic := some "algebra", vars := ["x"],
    constraints := [], retrieved_context := [] }

/-- Solver reply producing a SOLVED candidate. -/
def c8_solver_response : LLMResponse :=
  { success := true, content := "",
    parsed_json := some (.jobj
      [("final_answer", .jstr "x = 5"),
       ("steps", .jarr [.jstr "Subtract 5 from both sides",
                        .jstr "Divide both sides by 2"]),
       ("tool_requests", .jarr [])]),
    error := none }

/-- Verifier reply with verdict correct at confidence 0.92. -/
def c8_verifier_response : LLMResponse :=
  { success := true, content := "",
    parsed_json := some (.jobj
      [("verdict", .jstr "correct"), ("confidence", .jnum (mkRat 92 100)),
       ("issues", .jarr [])]),
    error := none }

/-- Stage replies of the DONE run. -/
def c8_responses : StageResponses :=
  { router := stub_response, solver := c8_solver_response,
    verifier := c8_verifier_response, explainer := stub_response }

/-- Trace of the DONE run: router, solver and verifier events only. -/
def c8_done_trace : List StageEvent :=
  [{ agent := "IntentRouter",
     output := .router { route := "algebra_equation", difficulty := "medium",
                         tools_allowed := ["python"], reason := none } },
   { agent := "Solver",
     output := .solver { status := "SOLVED", final_answer := .jstr "x = 5",
                         steps := [.jstr "Subtract 5 from both sides",
                                   .jstr "Divide both sides by 2"],
                         used_tools := [], reason := none } },
   { agent := "Verifier",
     output := .verifier { verdict := "correct", confidence := mkRat 92 100,
                           issues := [], requires_hitl := false } }]

/-- C8 counterexample: the claim requires a run that reaches DONE to carry one
trace event each for Routing, Solving, Verifying and Explaining.  On a
concrete run that reaches DONE the trace has exactly three events — router,
solver and verifier — and no event for the explaining stage, because the
success path of `process_problem` never appends an explainer event. -/
theorem c8_counterexample_done_without_explainer_event :
    MultiAgentSystem.process_problem c8_problem c8_responses "fresh-8" []
      = .ok (.success (.jstr "x = 5")
          [.jstr "Subtract 5 from both sides", .jstr "Divide both sides by 2"]
          { explanation := .jarr [], key_concepts := .jarr [],
            common_mistakes := .jarr [] }
          (mkRat 92 100) c8_done_trace, [])
    ∧ c8_done_trace.map StageEvent.agent = ["IntentRouter", "Solver", "Verifier"] := by
  constructor
  · rfl
  · rfl

/-- C8 amended: the trace holds exactly one event per stage actually entered
among Routing, Solving and Verifying, in execution order; the Explaining
stage appends no event, so a DONE run carries the three events router, solver,
verifier, a short-circuited run carries a prefix of them, and a suspended run
stores the three events in its ledger record. -/
theorem c8_trace_per_stage_entered (pd : ProblemInput) (resps : StageResponses)
    (fresh_id : String) (store : HitlStore) (result : RunResult) (store2 : HitlStore)
    (h : MultiAgentSystem.process_problem pd resps fresh_id store
      = .ok (result, store2)) :
    (∀ t, result = .out_of_scope t → t.map StageEvent.agent = ["IntentRouter"])
    ∧ (∀ t, result = .failed t → t.map StageEvent.agent = ["IntentRouter", "Solver"])
    ∧ (∀ fa st ex cf t, result = .success fa st ex cf t →
        t.map StageEvent.agent = ["IntentRouter", "Solver", "Verifier"])
    ∧ (∀ rid reason, result = .hitl_required rid reason →
        rid = fresh_id ∧ ∃ record, hlookup store2 fresh_id = some record ∧
          record.agent_trace.map StageEvent.agent
            = ["IntentRouter", "Solver", "Verifier"]) := by
  simp only [MultiAgentSystem.process_problem] at h
  repeat' split at h
  all_goals try exact (Except.noConfusion h)
  all_goals injection h with h2
  all_goals injection h2 with h3 h4
  all_goals subst h4
  all_goals subst h3
  all_goals simp_all [hlookup]
  all_goals intro fa st ex cf t hfa hst hex hcf ht
  all_goals subst ht
  all_goals rfl

/-- Witness for the amended C8 statement at the concrete DONE run. -/
theorem c8_trace_per_stage_entered_witness :
    c8_done_trace.map StageEvent.agent = ["IntentRouter", "Solver", "Verifier"] :=
  (c8_trace_per_stage_entered c8_problem c8_responses "fresh-8" []
      (.success (.jstr "x = 5")
        [.jstr "Subtract 5 from both sides", .jstr "Divide both sides by 2"]
        { explanation := .jarr [], key_concepts := .jarr [],
          common_mistakes := .jarr [] }
        (mkRat 92 100) c8_done_trace) [] (by rfl)).2.2.1
    (.jstr "x = 5")
    [.jstr "Subtract 5 from both sides", .jstr "Divide both sides by 2"]
    { explanation := .jarr [], key_concepts := .jarr [],
      common_mistakes := .jarr [] }
    (mkRat 92 100) c8_done_trace rfl

/-- Tools collected by the enforcement loop are all authorized. -/
theorem enforce_tools_ok_mem (tools : List JVal) (allowed : List String)
    (used : List JVal) (h : enforce_tools tools allowed = .ok used) :
    ∀ t ∈ used, tool_allowed t allowed = true := by
  induction tools generalizing used with
  | nil =>
    simp only [enforce_tools] at h
    injection h with h2
    subst h2
    intro t ht
    cases ht
  | cons x xs ih =>
    simp only [enforce_tools] at h
    by_cases hx : tool_allowed x allowed = true
    · rw [if_pos hx] at h
      cases hrec : enforce_tools xs allowed with
      | ok used2 =>
        rw [hrec] at h
        injection h with h2
        subst h2
        intro t ht
        rcases List.mem_cons.mp ht with rfl | hmem
        · exact hx
        · exact ih used2 hrec t hmem
      | error e =>
        rw [hrec] at h
        exact (Except.noConfusion h)
    · rw [if_neg hx] at h
      exact (Except.noConfusion h)

/-- The enforcement loop aborts whenever some requested tool is unauthorized. -/
theorem enforce_tools_err_of_unauthorized (tools : List JVal)
    (allowed : List String) (t : JVal) (hmem : t ∈ tools)
    (ht : tool_allowed t allowed = false) :
    ∃ e, enforce_tools tools allowed = .error e := by
  induction tools with
  | nil => cases hmem
  | cons x xs ih =>
    rcases List.mem_cons.mp hmem with rfl | hmem2
    · refine ⟨"Unauthorized tool request: " ++ jdisplay t, ?_⟩
      simp only [enforce_tools]
      rw [if_neg (by simp [ht])]
    · by_cases hx : tool_allowed x allowed = true
      · rcases ih hmem2 with ⟨e, he⟩
        refine ⟨e, ?_⟩
        simp only [enforce_tools]
        rw [if_pos hx, he]
      · refine ⟨"Unauthorized tool request: " ++ jdisplay x, ?_⟩
        simp only [enforce_tools]
        rw [if_neg hx]

/-- Authorized requests are exactly the strings among the allowed names. -/
theorem tool_allowed_iff (t : JVal) (ta : List String) :
    tool_allowed t ta = true ↔ ∃ s, t = .jstr s ∧ s ∈ ta := by
  cases t <;> simp [tool_allowed]

/-- A steps value that is not representable as an ordered sequence of atomic
strings under the normalization of `SolverAgent.solve`: neither a JSON array
nor a string (a string is split into atomic lines). -/
def steps_unrepresentable : JVal → Prop
  | .jstr _ => False
  | .jarr _ => False
  | _ => True

/-- A final_answer value that is empty in the sense of the source check
`not isinstance(final_answer, str) or not final_answer.strip()`. -/
def answer_empty : JVal → Prop
  | .jstr s => py_trim s = ""
  | _ => True

/-- On a SOLVED result the final answer is a string with nonblank content and
every used tool passed the authorization test. -/
theorem solve_solved_shape (pt rt d : String) (ta rc : List String)
    (resp : LLMResponse) (sr : SolverResult)
    (h : SolverAgent.solve pt rt d ta rc resp = .ok sr)
    (hs : sr.status = "SOLVED") :
    (∃ s, sr.final_answer = .jstr s ∧ py_trim s ≠ "")
    ∧ (∀ t ∈ sr.used_tools, tool_allowed t ta = true) := by
  simp only [SolverAgent.solve] at h
  repeat' split at h
  all_goals try exact (Except.noConfusion h)
  all_goals injection h with h2
  all_goals subst h2
  all_goals simp only [solver_failed] at hs
  all_goals try simp at hs
  refine ⟨⟨_, rfl, ?_⟩, ?_⟩
  · assumption
  · exact enforce_tools_ok_mem _ _ _ (by assumption)

/-- A steps value that is neither an array nor a string makes solve FAIL. -/
theorem solve_failed_of_bad_steps (pt rt d : String) (ta rc : List String)
    (resp : LLMResponse) (sr : SolverResult) (kvs : List (String × JVal))
    (v : JVal) (h : SolverAgent.solve pt rt d ta rc resp = .ok sr)
    (hkvs : resp.parsed_json = some (.jobj kvs))
    (hv : hlookup kvs "steps" = some v) (hbad : steps_unrepresentable v) :
    sr.status = "FAILED" := by
  simp only [SolverAgent.solve] at h
  repeat' split at h
  all_goals try exact (Except.noConfusion h)
  all_goals injection h with h2
  all_goals subst h2
  all_goals cases v
  all_goals simp_all [solver_failed, steps_unrepresentable]

/-- An empty or non-string final answer makes solve FAIL. -/
theorem solve_failed_of_empty_answer (pt rt d : String) (ta rc : List String)
    (resp : LLMResponse) (sr : SolverResult) (kvs : List (String × JVal))
    (v : JVal) (h : SolverAgent.solve pt rt d ta rc resp = .ok sr)
    (hkvs : resp.parsed_json = some (.jobj kvs))
    (hv : hlookup kvs "final_answer" = some v) (hbad : answer_empty v) :
    sr.status = "FAILED" := by
  simp only [SolverAgent.solve] at h
  repeat' split at h
  all_goals try exact (Except.noConfusion h)
  all_goals injection h with h2
  all_goals subst h2
  all_goals cases v
  all_goals simp_all [solver_failed, answer_empty]

/-- An unauthorized tool request makes solve FAIL. -/
theorem solve_failed_of_unauthorized_tool (pt rt d : String)
    (ta rc : List String) (resp : LLMResponse) (sr : SolverResult)
    (kvs : List (String × JVal)) (v : JVal) (tools : List JVal) (t : JVal)
    (h : SolverAgent.solve pt rt d ta rc resp = .ok sr)
    (hkvs : resp.parsed_json = some (.jobj kvs))
    (hv : hlookup kvs "tool_requests" = some v)
    (hiter : py_iter v = some tools) (hmem : t ∈ tools)
    (htool : tool_allowed t ta = false) :
    sr.status = "FAILED" := by
  rcases enforce_tools_err_of_unauthorized tools ta t hmem htool with ⟨e, he⟩
  simp only [SolverAgent.solve] at h
  repeat' split at h
  all_goals try exact (Except.noConfusion h)
  all_goals injection h with h2
  all_goals subst h2
  all_goals simp_all [solver_failed]

/-- C9: the solver rejects (status FAILED) whenever the steps of the model
reply are not representable as an ordered sequence of atomic strings (neither
a JSON array nor a string that is split into lines), whenever the final
answer is empty or not a string, and whenever any requested tool is not among
the allowed tools; and every SOLVED result carries a nonblank string final
answer and used_tools that are a subset of the allowed tools. -/
theorem c9_solver_contract (pt rt d : String) (ta rc : List String)
    (resp : LLMResponse) (sr : SolverResult)
    (h : SolverAgent.solve pt rt d ta rc resp = .ok sr) :
    (sr.status = "SOLVED" →
      (∃ s, sr.final_answer = .jstr s ∧ py_trim s ≠ "")
      ∧ (∀ t ∈ sr.used_tools, ∃ s, t = .jstr s ∧ s ∈ ta))
    ∧ (∀ kvs v, resp.parsed_json = some (.jobj kvs) →
        hlookup kvs "steps" = some v → steps_unrepresentable v →
        sr.status = "FAILED")
    ∧ (∀ kvs v, resp.parsed_json = some (.jobj kvs) →
        hlookup kvs "final_answer" = some v → answer_empty v →
        sr.status = "FAILED")
    ∧ (∀ kvs v tools t, resp.parsed_json = some (.jobj kvs) →
        hlookup kvs "tool_requests" = some v → py_iter v = some tools →
        t ∈ tools → tool_allowed t ta = false →
        sr.status = "FAILED") := by
  refine ⟨?_, ?_, ?_, ?_⟩
  · intro hs
    rcases solve_solved_shape pt rt d ta rc resp sr h hs with ⟨hfa, htools⟩
    exact ⟨hfa, fun t ht => (tool_allowed_iff t ta).mp (htools t ht)⟩
  · intro kvs v h1 h2 h3
    exact solve_failed_of_bad_steps pt rt d ta rc resp sr kvs v h h1 h2 h3
  · intro kvs v h1 h2 h3
    exact solve_failed_of_empty_answer pt rt d ta rc resp sr kvs v h h1 h2 h3
  · intro kvs v tools t h1 h2 h3 h4 h5
    exact solve_failed_of_unauthorized_tool pt rt d ta rc resp sr kvs v tools t
      h h1 h2 h3 h4 h5

/-- Solver reply used by the C9 witness. -/
def c9_response : LLMResponse :=
  { success := true, content := "",
    parsed_json := some (.jobj
      [("final_answer", .jstr "x = 5"),
       ("steps", .jarr [.jstr "Divide both sides by 2"]),
       ("tool_requests", .jarr [.jstr "python"])]),
    error := none }

/-- Witness for C9 at a concrete SOLVED reply with one authorized tool. -/
theorem c9_solver_contract_witness :
    (∃ s, JVal.jstr "x = 5" = .jstr s ∧ py_trim s ≠ "")
    ∧ (∀ t ∈ [JVal.jstr "python"], ∃ s, t = .jstr s ∧ s ∈ ["python"]) :=
  (c9_solver_contract "p" "algebra_equation" "medium" ["python"] [] c9_response
    { status := "SOLVED", final_answer := .jstr "x = 5",
      steps := [.jstr "Divide both sides by 2"],
      used_tools := [.jstr "python"], reason := none } rfl).1 rfl

/-- Explanation sequence produced by the underlying model inside its reply,
used for the count-mismatch clause of the explain contract. -/
def model_explanation (resp : LLMResponse) : Option (List JVal) :=
  match resp.parsed_json with
  | some (.jobj kvs) =>
    match hlookup kvs "explanation" with
    | some (.jarr xs) => some xs
    | _ => none
  | _ => none

/-- C10: every non-raising call of the explainer returns the empty
Explanation (the source reads the explanation keys off the client wrapper
dict, which has none, never off the parsed model reply), so in particular
whenever the per-step explanation count of the model reply differs from the
step count of the candidate, the result is the empty Explanation and never a
partially trusted or padded one; the result carries no final_answer or steps
at all, so the candidate is never altered. -/
theorem c10_explain_discards_mismatch (pt : String) (vs : List (String × JVal))
    (conf : ℚ) (resp : LLMResponse) (r : ExplanationResult)
    (h : ExplainerAgent.explain pt vs conf resp = .ok r) :
    r = { explanation := .jarr [], key_concepts := .jarr [],
          common_mistakes := .jarr [] }
    ∧ (∀ xs steps, model_explanation resp = some xs →
        hlookup vs "steps" = some (.jarr steps) →
        xs.length ≠ steps.length → r.explanation = .jarr []) := by
  simp only [ExplainerAgent.explain] at h
  split at h
  · exact (Except.noConfusion h)
  · simp [LLMResponse.as_dict, hlookup] at h
    refine ⟨h.symm, ?_⟩
    intro xs steps h1 h2 h3
    rw [← h]

/-- Explainer reply whose model explanation count (1) differs from the step
count of the candidate (2). -/
def c10_response : LLMResponse :=
  { success := true, content := "",
    parsed_json := some (.jobj [("explanation", .jarr [.jstr "only one"])]),
    error := none }

/-- Candidate dict with two steps, for the C10 witness. -/
def c10_solution : List (String × JVal) :=
  [("final_answer", .jstr "x = 5"),
   ("steps", .jarr [.jstr "Subtract 5 from both sides",
                    .jstr "Divide both sides by 2"])]

/-- Witness for C10 at a concrete mismatched reply: the returned explanation
is the empty sequence. -/
theorem c10_explain_discards_mismatch_witness :
    ({ explanation := .jarr [], key_concepts := .jarr [],
       common_mistakes := .jarr [] } : ExplanationResult).explanation = .jarr [] :=
  (c10_explain_discards_mismatch "Solve 2x+5=15" c10_solution 1 c10_response
      { explanation := .jarr [], key_concepts := .jarr [],
        common_mistakes := .jarr [] } rfl).2
    [.jstr "only one"]
    [.jstr "Subtract 5 from both sides", .jstr "Divide both sides by 2"]
    rfl rfl (by decide)

/-- C7 amended: correct_solution on a PENDING_REVIEW record requires the
corrected payload to be present, non-empty and to contain the keys
final_answer and steps — their values may be empty strings or lists; when the
keys are present it returns DONE (SUCCESS) with confidence exactly 1.0 and
the supplied final_answer and steps echoed unchanged, resolving the record;
the outcome is computed without any verifier call and is the same for every
stored verification; when a key is missing the outcome is an error and the
ledger is unchanged. -/
theorem c7_correct_solution_contract (store : HitlStore) (id : String)
    (record : HITLRecord) (resp : LLMResponse)
    (corrected : List (String × JVal))
    (hrec : hlookup store id = some record)
    (hstate : record.state = "PENDING_REVIEW") :
    ((corrected ≠ [] ∧ (hlookup corrected "final_answer").isSome = true
        ∧ (hlookup corrected "steps").isSome = true) →
      ∃ expl, ExplainerAgent.explain record.problem_data.problem_text
          corrected 1 resp = .ok expl
        ∧ MultiAgentSystem.resume_from_hitl
            { hitl_request_id := id, action := "correct_solution",
              edited_problem_text := none, corrected_solution := some corrected }
            resp store
          = .ok (.success ((hlookup corrected "final_answer").getD .jnull)
                  ((hlookup corrected "steps").getD .jnull) expl 1,
                 store_update store id
                   { record with
                     state := "RESOLVED",
                     resolution_type := some "EDITED_PROBLEM" }))
    ∧ ((corrected ≠ [] ∧ ¬((hlookup corrected "final_answer").isSome = true
          ∧ (hlookup corrected "steps").isSome = true)) →
      ∃ msg, MultiAgentSystem.resume_from_hitl
          { hitl_request_id := id, action := "correct_solution",
            edited_problem_text := none, corrected_solution := some corrected }
          resp store
        = .ok (.error msg, store)) := by
  constructor
  · intro ⟨hne, hfa, hst⟩
    refine ⟨{ explanation := .jarr [], key_concepts := .jarr [],
              common_mistakes := .jarr [] }, rfl, ?_⟩
    simp [MultiAgentSystem.resume_from_hitl, hrec, hstate, TERMINAL_STATES,
      hne, hfa, hst, List.isEmpty_iff, ExplainerAgent.explain,
      LLMResponse.as_dict, hlookup]
    rw [if_pos (by decide), if_neg (by decide)]
  · intro ⟨hne, hmiss⟩
    refine ⟨"corrected_solution must include final_answer and steps", ?_⟩
    simp [MultiAgentSystem.resume_from_hitl, hrec, hstate, TERMINAL_STATES,
      hne, hmiss, List.isEmpty_iff]
    have hc : (!((hlookup corrected "final_answer").isSome
        && (hlookup corrected "steps").isSome)) = true := by
      cases hfa : (hlookup corrected "final_answer").isSome <;>
        cases hstp : (hlookup corrected "steps").isSome <;> simp_all
    rw [if_pos (by decide), if_pos hc]

/-- Witness for the amended C7 statement: the round-trip of spec section 8,
a corrected solution with final_answer x=5 and one step, is echoed unchanged
at confidence 1.0. -/
theorem c7_correct_solution_contract_witness :
    ∃ expl, ExplainerAgent.explain fixture_low_record.problem_data.problem_text
        [("final_answer", .jstr "x=5"),
         ("steps", .jarr [.jstr "divide both sides by 2"])] 1 stub_response
        = .ok expl
      ∧ MultiAgentSystem.resume_from_hitl
          { hitl_request_id := "hitl-7w", action := "correct_solution",
            edited_problem_text := none,
            corrected_solution := some [("final_answer", .jstr "x=5"),
              ("steps", .jarr [.jstr "divide both sides by 2"])] }
          stub_response [("hitl-7w", fixture_low_record)]
        = .ok (.success
                ((hlookup [("final_answer", .jstr "x=5"),
                   ("steps", .jarr [.jstr "divide both sides by 2"])]
                   "final_answer").getD .jnull)
                ((hlookup [("final_answer", .jstr "x=5"),
                   ("steps", .jarr [.jstr "divide both sides by 2"])]
                   "steps").getD .jnull)
                expl 1,
               store_update [("hitl-7w", fixture_low_record)] "hitl-7w"
                 { fixture_low_record with
                   state := "RESOLVED",
                   resolution_type := some "EDITED_PROBLEM" }) :=
  (c7_correct_solution_contract [("hitl-7w", fixture_low_record)] "hitl-7w"
      fixture_low_record stub_response
      [("final_answer", .jstr "x=5"),
       ("steps", .jarr [.jstr "divide both sides by 2"])]
      rfl rfl).1 ⟨by simp, rfl, rfl⟩
